import Mathlib

/-!
# Sensors HAL wrapper (`sensors_wrapper/sensorswrapper.c`)

A shallow embedding of the wrapper that sits between the Android sensors
framework and the vendor (MediaTek) sensors HAL, and theorems about it.

Conventions of the embedding

* A C pointer is `Option Nat`: `none` is `NULL`, `some a` is the address `a`.
* The file-scope statics of the C file are the first five fields of `State`.
  Memory that the wrapper reads or writes through a pointer is part of the
  state as well: `sensors` (the `sensor_t` arrays, by address) and `devices`
  (the facade records handed to the framework, by address).
* Calls that leave the C file (vendor HAL entry points, `hw_get_module_by_class`,
  `malloc`, `free`) are appended to `trace`; what such a call returns is an
  argument of the embedded function, so every theorem quantifies over all
  behaviours of the collaborator.  Logging (`ALOGI`, `ALOGE`) is not modelled.
  A `free` is recorded in the trace and nothing more: object lifetimes are not
  tracked, and the vendor tables are taken to be in `sensors` before the call.
* An embedded function returns `Except Stuck _`: `.ok` is a normal return of
  the C function, `.error` says why the C function does not return normally.
* `int`, `int64_t` values are `Int`, `uint32_t` values are `Nat`; the only
  arithmetic in the file is `0 + count`, which cannot overflow.
* A `float` is carried as its IEEE-754 binary32 bit pattern; the only float
  operation in the file is storing the constant `5.0`.
-/

namespace SensorsWrapper

/-! ## Platform constants (`errno.h`, `hardware/hardware.h`, `hardware/sensors.h`) -/

/-- Modelled from the spec: `EINVAL` of the platform header `errno.h` (not under
`src/`), the code behind the spec's `InvalidArgument` and invalid-list errors. -/
def EINVAL : Int := 22

/-- Modelled from the spec: `ENODEV` of the platform header `errno.h` (not under
`src/`), the code behind the spec's `AlreadyOpen` error. -/
def ENODEV : Int := 19

/-- Modelled from the spec: `ENOMEM` of the platform header `errno.h` (not under
`src/`), the code behind the spec's `AllocationFailure` error. -/
def ENOMEM : Int := 12

/-- Modelled from the spec: the type tag "proximity" of `hardware/sensors.h`
(not under `src/`). -/
def SENSOR_TYPE_PROXIMITY : Int := 8

/-- Modelled from the spec: the type tag "heart rate" of `hardware/sensors.h`
(not under `src/`). -/
def SENSOR_TYPE_HEART_RATE : Int := 21

/-- Modelled from the spec: the type tag "tilt detector" of `hardware/sensors.h`
(not under `src/`). -/
def SENSOR_TYPE_TILT_DETECTOR : Int := 22

/-- Modelled from the spec: the wake-up bit of the flags bitset of
`hardware/sensors.h` (not under `src/`). -/
def SENSOR_FLAG_WAKE_UP : Nat := 1

/-- Modelled from the spec: the on-change reporting mode of the flags bitset of
`hardware/sensors.h` (not under `src/`). -/
def SENSOR_FLAG_ON_CHANGE_MODE : Nat := 2

/-- Modelled from the spec: the body-sensors permission string of
`hardware/sensors.h` (not under `src/`). -/
def SENSOR_PERMISSION_BODY_SENSORS : String := "android.permission.BODY_SENSORS"

/-- Modelled from the spec: `HARDWARE_DEVICE_TAG` of `hardware/hardware.h` (not
under `src/`), the four characters `HWDT`. -/
def HARDWARE_DEVICE_TAG : Nat := 0x48574454

/-- Modelled from the spec: `SENSORS_DEVICE_API_VERSION_1_3` of
`hardware/sensors.h` (not under `src/`). -/
def SENSORS_DEVICE_API_VERSION_1_3 : Nat := 0x01030001

/-! ## Data model -/

/-- A C `float`, as its binary32 bit pattern. -/
structure CFloat where
  bits : Nat
  deriving DecidableEq, Repr

/-- The value stored by `maxRange = 5.0`: the constant `5.0` is exactly
representable, sign 0, exponent 129, mantissa 0x200000. -/
def CFloat.five : CFloat := ⟨0x40A00000⟩

/-- Modelled from the spec: `struct sensor_t` of `hardware/sensors.h` (not under
`src/`): identity, type tag, numeric ranges, the FIFO-capacity pair, the flags
bitset and the optional required-permission string.  A `const char*` is
`Option String`. -/
structure sensor_t where
  name : Option String
  vendor : Option String
  version : Int
  handle : Int
  type : Int
  maxRange : CFloat
  resolution : CFloat
  power : CFloat
  minDelay : Int
  fifoReservedEventCount : Nat
  fifoMaxEventCount : Nat
  stringType : Option String
  requiredPermission : Option String
  maxDelay : Int
  flags : Nat
  reserved0 : Nat
  reserved1 : Nat
  deriving DecidableEq, Repr

/-- The functions of the C file that `sensors_module_open` installs in the
facade record; `null` is the zero left by `memset`. -/
inductive FnPtr
  | null
  | wrapper_sensors_module_close
  | wrapper_activate
  | wrapper_setDelay
  | wrapper_poll
  | wrapper_batch
  | wrapper_flush
  deriving DecidableEq, Repr

/-- The fields of `struct sensors_poll_device_1` that the wrapper writes
(`common.tag`, `common.version`, `common.module`, `common.close` and the five
operations). -/
structure sensors_poll_device_1 where
  tag : Nat
  version : Nat
  module : Option Nat
  close : FnPtr
  activate : FnPtr
  setDelay : FnPtr
  poll : FnPtr
  batch : FnPtr
  flush : FnPtr
  deriving DecidableEq, Repr

/-- The record after `memset(*device, 0, sizeof(struct sensors_poll_device_1))`. -/
def sensors_poll_device_1.zero : sensors_poll_device_1 :=
  ⟨0, 0, none, .null, .null, .null, .null, .null, .null⟩

/-- A call that leaves the C file, with its receiver and arguments. -/
inductive Call
  /-- The lookup `hw_get_module_by_class("sensors", "vendor", &gVendorModule)`. -/
  | hw_get_module_by_class
  /-- The query `m->get_sensors_list(m, &subhal_sensors_list)`. -/
  | get_sensors_list (m : Nat)
  /-- The call `m->common.methods->open(m, id, &mtk_hw_dev)`. -/
  | vendor_open (m : Nat) (id : String)
  /-- The call `d->setDelay(d, handle, ns)`. -/
  | setDelay (d : Nat) (handle : Int) (ns : Int)
  /-- The call `d->activate(d, handle, enabled)`. -/
  | activate (d : Nat) (handle : Int) (enabled : Int)
  /-- The call `d->poll(d, data, count)`. -/
  | poll (d : Nat) (data : Option Nat) (count : Int)
  /-- The call `d->common.close(device)`. -/
  | close (d : Nat) (device : Option Nat)
  /-- The allocation `malloc(sizeof(struct sensors_poll_device_1))`. -/
  | malloc
  /-- The release `free(p)`. -/
  | free (p : Nat)
  deriving DecidableEq, Repr

/-- Why a C function does not return normally. -/
inductive Stuck
  /-- The caller blocks for ever in `pthread_mutex_lock` on a held mutex. -/
  | deadlock
  /-- A member access or call through a `NULL` pointer. -/
  | null_deref
  /-- An array element beyond the end of the object pointed to. -/
  | out_of_bounds
  deriving DecidableEq, Repr

/-- The statics of the C file, the memory it reaches through pointers, and the
calls it has made so far. -/
structure State where
  /-- Whether `init_sensors_mutex` is held. -/
  init_sensors_mutex : Bool
  gVendorModule : Option Nat
  mtk_hw_dev : Option Nat
  global_sensors_list : Option Nat
  global_sensors_count : Int
  /-- The `sensor_t` array that lives at an address (`[]` where none does). -/
  sensors : Nat → List sensor_t
  /-- The facade record that lives at an address. -/
  devices : Nat → sensors_poll_device_1
  trace : List Call

/-- The statics as their initialisers leave them, over a given memory. -/
def State.init (sensors : Nat → List sensor_t) (devices : Nat → sensors_poll_device_1) : State :=
  { init_sensors_mutex := false
    gVendorModule := none
    mtk_hw_dev := none
    global_sensors_list := none
    global_sensors_count := -1
    sensors := sensors
    devices := devices
    trace := [] }

/-- What `hw_get_module_by_class` does: its return code and the pointer it
leaves in `gVendorModule`. -/
structure ModuleLookup where
  ret : Int
  module : Option Nat
  deriving DecidableEq, Repr

/-- What the vendor `get_sensors_list` does: the count it returns and the
pointer it leaves in `subhal_sensors_list`. -/
structure ListQuery where
  count : Int
  list : Option Nat
  deriving DecidableEq, Repr

/-- What the vendor `open` does: its return code and the pointer it leaves in
`mtk_hw_dev`. -/
structure DeviceOpen where
  ret : Int
  device : Option Nat
  deriving DecidableEq, Repr

/-! ## The capability table: `check_vendor_module`, `lazy_init_sensors_list`,
`sensors_list_get` -/

/-- The function `check_vendor_module` (lines 39-49). -/
def check_vendor_module (hw : ModuleLookup) (s : State) : Int × State :=
  match s.gVendorModule with
  | some _ => (0, s)
  | none =>
    (hw.ret, { s with gVendorModule := hw.module, trace := s.trace ++ [Call.hw_get_module_by_class] })

/-- A store `arr[i].field = v`, as the update `f` of element `i`. -/
def store (i : Nat) (f : sensor_t → sensor_t) (arr : List sensor_t) : Except Stuck (List sensor_t) :=
  match arr[i]? with
  | some x => .ok (arr.set i (f x))
  | none => .error .out_of_bounds

/-- A load `arr[i]`. -/
def load (i : Nat) (arr : List sensor_t) : Except Stuck sensor_t :=
  match arr[i]? with
  | some x => .ok x
  | none => .error .out_of_bounds

/-- The body of the loop of `lazy_init_sensors_list` (lines 72-90) at index `i`:
two stores, then the `switch` over the type tag. -/
def patch_entry (i : Nat) (arr : List sensor_t) : Except Stuck (List sensor_t) := do
  let arr ← store i (fun x => { x with fifoReservedEventCount := 0 }) arr
  let arr ← store i (fun x => { x with fifoMaxEventCount := 0 }) arr
  let x ← load i arr
  if x.type = SENSOR_TYPE_TILT_DETECTOR then
    store i (fun x => { x with flags := SENSOR_FLAG_WAKE_UP ||| SENSOR_FLAG_ON_CHANGE_MODE }) arr
  else if x.type = SENSOR_TYPE_HEART_RATE then
    store i (fun x => { x with requiredPermission := some SENSOR_PERMISSION_BODY_SENSORS }) arr
  else if x.type = SENSOR_TYPE_PROXIMITY then
    store i (fun x => { x with maxRange := CFloat.five }) arr
  else
    pure arr

/-- The loop `for (i = ...; i < global_sensors_count; i++)` with `k` iterations
left, on the array that `subhal_sensors_list` points to. -/
def patch_loop : Nat → Nat → List sensor_t → Except Stuck (List sensor_t)
  | 0, _, arr => .ok arr
  | k + 1, i, arr => do
    let arr ← patch_entry i arr
    patch_loop k (i + 1) arr

/-- The loop of lines 71-91 on memory: `count.toNat` iterations from `i = 0`
through the pointer `p`; no iteration, no access. -/
def patch_pass (p : Option Nat) (count : Int) (mem : Nat → List sensor_t) :
    Except Stuck (Nat → List sensor_t) :=
  if count.toNat = 0 then .ok mem
  else
    match p with
    | none => .error .null_deref
    | some a => do
      let arr ← patch_loop count.toNat 0 (mem a)
      pure (Function.update mem a arr)

/-- The function `lazy_init_sensors_list` (lines 54-95).  `hw` and `q` are what
the vendor lookup and the vendor list query do if they are called. -/
def lazy_init_sensors_list (hw : ModuleLookup) (q : ListQuery) (s : State) : Except Stuck State :=
  if s.init_sensors_mutex then .error .deadlock
  else
    let s := { s with init_sensors_mutex := true }
    match s.global_sensors_list with
    | some _ => .ok { s with init_sensors_mutex := false }
    | none =>
      let (ret, s) := check_vendor_module hw s
      if ret ≠ 0 then .ok s
      else
        let s := { s with global_sensors_count := 0 }
        match s.gVendorModule with
        | none => .error .null_deref
        | some m => do
          let s := { s with global_sensors_count := s.global_sensors_count + q.count,
                            trace := s.trace ++ [Call.get_sensors_list m] }
          let mem ← patch_pass q.list s.global_sensors_count s.sensors
          let s := { s with sensors := mem }
          pure { s with global_sensors_list := q.list, init_sensors_mutex := false }

/-- The function `sensors_list_get` (lines 97-105): the return value and what
is written to `*plist` (`none`: nothing is written). -/
def sensors_list_get (hw : ModuleLookup) (q : ListQuery) (s : State) :
    Except Stuck ((Int × Option Nat) × State) := do
  let s ← lazy_init_sensors_list hw q s
  match s.global_sensors_list with
  | some p => pure ((s.global_sensors_count, some p), s)
  | none => pure ((-EINVAL, none), s)

/-! ## The device proxy: the forwarding wrappers, close and open -/

/-- The function `wrapper_setDelay` (line 107, `WRAP_HAL`):
`return mtk_hw_dev->setDelay(mtk_hw_dev, handle, ns);`.  `r` is what the
underlying call returns; the parameter `dev` is not used by the C function. -/
def wrapper_setDelay (r : Int) (_dev : Option Nat) (handle : Int) (ns : Int) (s : State) :
    Except Stuck (Int × State) :=
  match s.mtk_hw_dev with
  | none => .error .null_deref
  | some d => .ok (r, { s with trace := s.trace ++ [Call.setDelay d handle ns] })

/-- The function `wrapper_activate` (line 108, `WRAP_HAL`):
`return mtk_hw_dev->activate(mtk_hw_dev, handle, enabled);`. -/
def wrapper_activate (r : Int) (_dev : Option Nat) (handle : Int) (enabled : Int) (s : State) :
    Except Stuck (Int × State) :=
  match s.mtk_hw_dev with
  | none => .error .null_deref
  | some d => .ok (r, { s with trace := s.trace ++ [Call.activate d handle enabled] })

/-- The function `wrapper_poll` (line 109, `WRAP_HAL`):
`return mtk_hw_dev->poll(mtk_hw_dev, data, count);`. -/
def wrapper_poll (r : Int) (_dev : Option Nat) (data : Option Nat) (count : Int) (s : State) :
    Except Stuck (Int × State) :=
  match s.mtk_hw_dev with
  | none => .error .null_deref
  | some d => .ok (r, { s with trace := s.trace ++ [Call.poll d data count] })

/-- The function `wrapper_batch` (lines 111-114):
`return mtk_hw_dev->setDelay(mtk_hw_dev, handle, ns);`.  `r` is what the
underlying `setDelay` returns. -/
def wrapper_batch (r : Int) (_dev : Option Nat) (handle : Int) (_flags : Int) (ns : Int)
    (_timeout : Int) (s : State) : Except Stuck (Int × State) :=
  match s.mtk_hw_dev with
  | none => .error .null_deref
  | some d => .ok (r, { s with trace := s.trace ++ [Call.setDelay d handle ns] })

/-- The function `wrapper_flush` (lines 116-118): `return -EINVAL;`. -/
def wrapper_flush (_dev : Option Nat) (_handle : Int) (s : State) : Except Stuck (Int × State) :=
  .ok (-EINVAL, s)

/-- The release `if (global_sensors_list) { free(global_sensors_list);
global_sensors_list = NULL; }` shared by close (lines 131-134) and by the
`fail:` exit of open (lines 199-202). -/
def release_sensors_list (s : State) : State :=
  match s.global_sensors_list with
  | some p => { s with global_sensors_list := none, trace := s.trace ++ [Call.free p] }
  | none => s

/-- The function `wrapper_sensors_module_close` (lines 120-137).  `rc` is what
the underlying `common.close` returns. -/
def wrapper_sensors_module_close (rc : Int) (device : Option Nat) (s : State) :
    Except Stuck (Int × State) :=
  -- line 123: `if (!device) ret = -EINVAL;` (the value is not used below)
  let _ret : Option Int := if device = none then some (-EINVAL) else none
  match s.mtk_hw_dev with
  | none => .error .null_deref
  | some d =>
    -- line 127: `ret = mtk_hw_dev->common.close(device);`
    let ret := rc
    let s := { s with trace := s.trace ++ [Call.close d device] }
    -- lines 129-130: `free(mtk_hw_dev); mtk_hw_dev = NULL;`
    let s := { s with mtk_hw_dev := none, trace := s.trace ++ [Call.free d] }
    let s := release_sensors_list s
    .ok (ret, s)

/-- The exit `fail:` of `sensors_module_open` (lines 190-204).  `dev` is the
content of the local `dev`, which no path to `fail:` has assigned. -/
def sensors_module_open_fail (ret : Int) (dev : Option Nat) (s : State) :
    (Int × Option Nat) × State :=
  let s :=
    match s.mtk_hw_dev with
    | some d => { s with mtk_hw_dev := none, trace := s.trace ++ [Call.free d] }
    | none => s
  let s :=
    match dev with
    | some g => { s with trace := s.trace ++ [Call.free g] }
    | none => s
  let s := release_sensors_list s
  -- *device = NULL; return ret;
  ((ret, none), s)

/-- The function `sensors_module_open` (lines 139-205): the return value and
what is left in `*device`.  `hw`, `vo` and `alloc` are what the vendor lookup,
the vendor `open` and `malloc` do if they are called; `dev` is the content of
the uninitialised local `dev`. -/
def sensors_module_open (hw : ModuleLookup) (vo : DeviceOpen) (alloc : Option Nat)
    (dev : Option Nat) (module : Option Nat) (id : String) (s : State) :
    Except Stuck ((Int × Option Nat) × State) :=
  match s.mtk_hw_dev with
  | some _ => .ok (sensors_module_open_fail (-ENODEV) dev s)
  | none =>
    let (ret, s) := check_vendor_module hw s
    if ret ≠ 0 then .ok (sensors_module_open_fail ret dev s)
    else
      match s.gVendorModule with
      | none => .error .null_deref
      | some m =>
        let ret := vo.ret
        let s := { s with mtk_hw_dev := vo.device, trace := s.trace ++ [Call.vendor_open m id] }
        if ret ≠ 0 then .ok (sensors_module_open_fail ret dev s)
        else
          let s := { s with trace := s.trace ++ [Call.malloc] }
          match alloc with
          | none => .ok (sensors_module_open_fail (-ENOMEM) dev s)
          | some f =>
            let rec0 := sensors_poll_device_1.zero
            let rec1 := { rec0 with tag := HARDWARE_DEVICE_TAG,
                                    version := SENSORS_DEVICE_API_VERSION_1_3,
                                    module := module }
            let rec2 := { rec1 with close := FnPtr.wrapper_sensors_module_close,
                                    activate := FnPtr.wrapper_activate,
                                    setDelay := FnPtr.wrapper_setDelay,
                                    poll := FnPtr.wrapper_poll,
                                    batch := FnPtr.wrapper_batch,
                                    flush := FnPtr.wrapper_flush }
            .ok ((ret, some f), { s with devices := Function.update s.devices f rec2 })

/-- A run of consecutive `sensors_list_get` calls, one per element of `env`
(what the vendor would do during that call), with nothing in between: the
results in call order and the final state. -/
def sensors_list_get_seq : List (ModuleLookup × ListQuery) → State →
    Except Stuck (List (Int × Option Nat) × State)
  | [], s => .ok ([], s)
  | e :: env, s => do
    let (r, s) ← sensors_list_get e.1 e.2 s
    let (rs, s) ← sensors_list_get_seq env s
    pure (r :: rs, s)

/-- The descriptor patch in the words of the specification: both FIFO counts
are zero; the flags are the wake-up/on-change pair for a tilt detector; the
required permission is the body-sensors permission for a heart-rate sensor;
the maximum range is 5.0 for a proximity sensor; every other field is the
vendor value. -/
def spec_patch (x : sensor_t) : sensor_t :=
  { x with
    fifoReservedEventCount := 0
    fifoMaxEventCount := 0
    flags := if x.type = SENSOR_TYPE_TILT_DETECTOR
      then SENSOR_FLAG_WAKE_UP ||| SENSOR_FLAG_ON_CHANGE_MODE else x.flags
    requiredPermission := if x.type = SENSOR_TYPE_HEART_RATE
      then some SENSOR_PERMISSION_BODY_SENSORS else x.requiredPermission
    maxRange := if x.type = SENSOR_TYPE_PROXIMITY then CFloat.five else x.maxRange }

/-- How often the vendor list query occurs in a trace. -/
def list_queries (t : List Call) : Nat :=
  (t.filter fun c => match c with
    | Call.get_sensors_list _ => true
    | _ => false).length

/-- The vendor module resolves: `check_vendor_module` finds the cached handle,
or the lookup returns 0 and leaves a module in `gVendorModule`. -/
def vendor_resolves (hw : ModuleLookup) (s : State) : Prop :=
  s.gVendorModule.isSome = true ∨ (hw.ret = 0 ∧ hw.module.isSome = true)

instance (hw : ModuleLookup) (s : State) : Decidable (vendor_resolves hw s) := by
  unfold vendor_resolves
  infer_instance

/-- An array whose first `k` descriptors are patched and whose other
descriptors are as they were. -/
def patched_upto (k : Nat) (arr : List sensor_t) : List sensor_t :=
  (arr.take k).map spec_patch ++ arr.drop k

/-- The state in which `lazy_init_sensors_list` returns after it has built the
table from the vendor module `m` and the array at `a`. -/
def built (hw : ModuleLookup) (q : ListQuery) (m a : Nat) (s : State) : State :=
  { (check_vendor_module hw s).2 with
    init_sensors_mutex := false
    global_sensors_count := 0 + q.count
    global_sensors_list := some a
    sensors := Function.update s.sensors a (patched_upto q.count.toNat (s.sensors a))
    trace := (check_vendor_module hw s).2.trace ++ [Call.get_sensors_list m] }

/-! ## Concrete inputs used to exercise the theorems -/

/-- An accelerometer descriptor (type tag 1) that advertises a FIFO. -/
def demo_accel : sensor_t :=
  { name := some "ACCELEROMETER", vendor := some "MTK", version := 1, handle := 0, type := 1,
    maxRange := ⟨0x420C0000⟩, resolution := ⟨0x3A800000⟩, power := ⟨0x3E000000⟩,
    minDelay := 10000, fifoReservedEventCount := 16, fifoMaxEventCount := 64,
    stringType := some "android.sensor.accelerometer", requiredPermission := none,
    maxDelay := 1000000, flags := 0, reserved0 := 0, reserved1 := 0 }

/-- A proximity descriptor (type tag 8) with maximum range 1.0. -/
def demo_prox : sensor_t :=
  { name := some "PROXIMITY", vendor := some "MTK", version := 1, handle := 7, type := 8,
    maxRange := ⟨0x3F800000⟩, resolution := ⟨0x3F800000⟩, power := ⟨0x3E000000⟩,
    minDelay := 0, fifoReservedEventCount := 0, fifoMaxEventCount := 0,
    stringType := some "android.sensor.proximity", requiredPermission := none,
    maxDelay := 1000000, flags := 3, reserved0 := 0, reserved1 := 0 }

/-- A memory with the vendor table `[demo_accel, demo_prox]` at address 4096. -/
def demo_sensors : Nat → List sensor_t :=
  fun a => if a = 4096 then [demo_accel, demo_prox] else []

/-- A memory of facade records, all zero. -/
def demo_devices : Nat → sensors_poll_device_1 :=
  fun _ => sensors_poll_device_1.zero

/-- The wrapper right after it has been loaded. -/
def demo_state : State := State.init demo_sensors demo_devices

/-- A vendor lookup that succeeds with the module at address 512. -/
def demo_lookup : ModuleLookup := ⟨0, some 512⟩

/-- A vendor lookup that fails with `-ENOENT` and leaves `NULL`. -/
def demo_lookup_fails : ModuleLookup := ⟨-2, none⟩

/-- A vendor list query that reports the two descriptors at address 4096. -/
def demo_query : ListQuery := ⟨2, some 4096⟩

/-- A wrapper with the vendor module 512 resolved and the device 768 open. -/
def demo_open_state : State :=
  { demo_state with gVendorModule := some 512, mtk_hw_dev := some 768 }

/-- A wrapper with the vendor module 512 resolved, the device 768 open and the
table at address 4096 cached. -/
def demo_open_cached_state : State :=
  { demo_open_state with global_sensors_list := some 4096, global_sensors_count := 2 }

/-- A vendor `open` that succeeds with the device at address 1024. -/
def demo_device_open : DeviceOpen := ⟨0, some 1024⟩

/-- The facade record as `sensors_module_open` leaves it on success, for the
`module` argument it was given. -/
def wrapper_facade (module : Option Nat) : sensors_poll_device_1 :=
  { tag := HARDWARE_DEVICE_TAG
    version := SENSORS_DEVICE_API_VERSION_1_3
    module := module
    close := FnPtr.wrapper_sensors_module_close
    activate := FnPtr.wrapper_activate
    setDelay := FnPtr.wrapper_setDelay
    poll := FnPtr.wrapper_poll
    batch := FnPtr.wrapper_batch
    flush := FnPtr.wrapper_flush }

/-! ## The patch loop -/

theorem getElem?_append_cons_length (a b : List sensor_t) (x : sensor_t) :
    (a ++ x :: b)[a.length]? = some x := by
  rw [List.getElem?_append_right (Nat.le_refl _)]
  simp

theorem store_append_cons (f : sensor_t → sensor_t) (a b : List sensor_t) (x : sensor_t) :
    store a.length f (a ++ x :: b) = .ok (a ++ f x :: b) := by
  unfold store
  rw [getElem?_append_cons_length]
  simp

theorem load_append_cons (a b : List sensor_t) (x : sensor_t) :
    load a.length (a ++ x :: b) = .ok x := by
  unfold load
  rw [getElem?_append_cons_length]

/-- One iteration of the loop rewrites the element at the index to its patched
value and touches no other element. -/
theorem patch_entry_append_cons (a b : List sensor_t) (x : sensor_t) :
    patch_entry a.length (a ++ x :: b) = .ok (a ++ spec_patch x :: b) := by
  simp only [patch_entry, bind, Except.bind, store_append_cons, load_append_cons, pure,
    Except.pure]
  by_cases h1 : x.type = SENSOR_TYPE_TILT_DETECTOR
  · simp [h1, store_append_cons, spec_patch, SENSOR_TYPE_TILT_DETECTOR, SENSOR_TYPE_HEART_RATE,
      SENSOR_TYPE_PROXIMITY]
  · by_cases h2 : x.type = SENSOR_TYPE_HEART_RATE
    · simp [h2, store_append_cons, spec_patch, SENSOR_TYPE_TILT_DETECTOR, SENSOR_TYPE_HEART_RATE,
        SENSOR_TYPE_PROXIMITY]
    · by_cases h3 : x.type = SENSOR_TYPE_PROXIMITY
      · simp [h3, store_append_cons, spec_patch, SENSOR_TYPE_TILT_DETECTOR,
          SENSOR_TYPE_HEART_RATE, SENSOR_TYPE_PROXIMITY]
      · simp [h1, h2, h3, spec_patch]

/-- An access beyond the end of the array stops the loop body. -/
theorem patch_entry_out_of_bounds (i : Nat) (arr : List sensor_t) (h : arr.length ≤ i) :
    patch_entry i arr = .error .out_of_bounds := by
  simp [patch_entry, store, List.getElem?_eq_none h, bind, Except.bind]

/-- With `k` iterations left at index `done.length`, the loop patches the next
`k` elements and leaves the rest of the array as it is. -/
theorem patch_loop_append (k : Nat) :
    ∀ (done rest : List sensor_t), k ≤ rest.length →
      patch_loop k done.length (done ++ rest)
        = .ok (done ++ (rest.take k).map spec_patch ++ rest.drop k) := by
  induction k with
  | zero => intro done rest _; simp [patch_loop]
  | succ k ih =>
    intro done rest hk
    cases rest with
    | nil => simp at hk
    | cons x rest =>
      have hk2 : k ≤ rest.length := by simpa using hk
      have step := ih (done ++ [spec_patch x]) rest hk2
      simp only [List.length_append, List.length_singleton, List.append_assoc,
        List.singleton_append] at step
      simp only [patch_loop, bind, Except.bind, patch_entry_append_cons, step]
      simp

/-- The whole loop, run over an array of exactly `count` elements, yields the
array of the patched elements in the same order. -/
theorem patch_loop_full (arr : List sensor_t) :
    patch_loop arr.length 0 arr = .ok (arr.map spec_patch) := by
  have h := patch_loop_append arr.length [] arr (Nat.le_refl _)
  simpa using h

theorem patched_upto_length (arr : List sensor_t) :
    patched_upto arr.length arr = arr.map spec_patch := by
  simp [patched_upto]

/-- The patch pass through a non-null pointer to an array of at least `count`
elements patches the first `count` elements in place. -/
theorem patch_pass_within (a : Nat) (count : Int) (mem : Nat → List sensor_t)
    (hn : count ≤ ((mem a).length : Int)) :
    patch_pass (some a) count mem
      = .ok (Function.update mem a (patched_upto count.toNat (mem a))) := by
  unfold patch_pass
  by_cases h0 : count.toNat = 0
  · simp [h0, patched_upto]
  · have hk : count.toNat ≤ (mem a).length := by omega
    have h := patch_loop_append count.toNat [] (mem a) hk
    simp only [List.length_nil, List.nil_append] at h
    simp [h0, h, bind, Except.bind, pure, Except.pure, patched_upto]

/-! ## The capability table -/

theorem built_sensors_full (hw : ModuleLookup) (q : ListQuery) (m a : Nat) (s : State)
    (hcount : q.count = ((s.sensors a).length : Int)) :
    (built hw q m a s).sensors a = (s.sensors a).map spec_patch := by
  have hk : q.count.toNat = (s.sensors a).length := by omega
  simp [built, hk, patched_upto_length]

theorem check_vendor_module_resolves (hw : ModuleLookup) (s : State)
    (h : vendor_resolves hw s) :
    ∃ m, (check_vendor_module hw s).1 = 0 ∧ (check_vendor_module hw s).2.gVendorModule = some m := by
  unfold check_vendor_module
  cases hm : s.gVendorModule with
  | some m => exact ⟨m, rfl, hm⟩
  | none =>
    rcases h with h | ⟨h0, h1⟩
    · simp [hm] at h
    · obtain ⟨m, hm2⟩ := Option.isSome_iff_exists.mp h1
      exact ⟨m, h0, hm2⟩

theorem check_vendor_module_frame (hw : ModuleLookup) (s : State) :
    (check_vendor_module hw s).2.init_sensors_mutex = s.init_sensors_mutex ∧
    (check_vendor_module hw s).2.global_sensors_list = s.global_sensors_list ∧
    (check_vendor_module hw s).2.mtk_hw_dev = s.mtk_hw_dev ∧
    (check_vendor_module hw s).2.sensors = s.sensors ∧
    (check_vendor_module hw s).2.devices = s.devices := by
  unfold check_vendor_module
  cases s.gVendorModule <;> simp

/-- The build path of `lazy_init_sensors_list`: lock free, empty cache, the
vendor module resolves to `m`, and the vendor reports the array at `a` with a
count that stays within it. -/
theorem lazy_init_sensors_list_build (hw : ModuleLookup) (q : ListQuery) (s : State) (m a : Nat)
    (hlock : s.init_sensors_mutex = false) (hcache : s.global_sensors_list = none)
    (hret : (check_vendor_module hw s).1 = 0)
    (hmod : (check_vendor_module hw s).2.gVendorModule = some m)
    (hlist : q.list = some a) (hcount : q.count ≤ ((s.sensors a).length : Int)) :
    lazy_init_sensors_list hw q s = .ok (built hw q m a s) := by
  obtain ⟨lock, gvm, dev, gl, gc, sens, devs, tr⟩ := s
  simp only at hlock hcache hcount
  subst hlock hcache
  have hpass := patch_pass_within a q.count sens hcount
  cases gvm with
  | some m0 =>
    simp only [check_vendor_module, Option.some.injEq] at hmod
    subst hmod
    simp [lazy_init_sensors_list, check_vendor_module, built, hlist, hpass, bind, Except.bind,
      pure, Except.pure]
  | none =>
    simp only [check_vendor_module] at hret hmod
    simp [lazy_init_sensors_list, check_vendor_module, built, hlist, hpass, bind, Except.bind,
      pure, Except.pure, hret, hmod]

/-- The fast path of `lazy_init_sensors_list`: with the lock free and the cache
populated the state is left exactly as it was, whatever the vendor would do. -/
theorem lazy_init_sensors_list_cached (hw : ModuleLookup) (q : ListQuery) (s : State) (a : Nat)
    (hlock : s.init_sensors_mutex = false) (hcache : s.global_sensors_list = some a) :
    lazy_init_sensors_list hw q s = .ok s := by
  unfold lazy_init_sensors_list
  simp only [hlock, hcache]
  cases s
  simp_all

/-- C1: on the first list call (the init lock has never been taken, the cache
is empty), with a vendor module that resolves and a vendor query that reports
the array at `a` together with its length `n` as the count, `sensors_list_get`
returns `n` and the pointer `a`, and the array behind it is, position by
position and in the same order, the vendor array with the specified patch
applied to each descriptor. -/
theorem sensors_list_get_first_call (hw : ModuleLookup) (q : ListQuery) (s : State) (a : Nat)
    (hlock : s.init_sensors_mutex = false) (hcache : s.global_sensors_list = none)
    (hres : vendor_resolves hw s)
    (hlist : q.list = some a) (hcount : q.count = ((s.sensors a).length : Int)) :
    ∃ s1, sensors_list_get hw q s = .ok ((((s.sensors a).length : Int), some a), s1) ∧
      s1.sensors a = (s.sensors a).map spec_patch := by
  obtain ⟨m, hret, hmod⟩ := check_vendor_module_resolves hw s hres
  refine ⟨built hw q m a s, ?_, built_sensors_full hw q m a s hcount⟩
  unfold sensors_list_get
  rw [lazy_init_sensors_list_build hw q s m a hlock hcache hret hmod hlist hcount.le]
  simp [bind, Except.bind, pure, Except.pure, built, hcount]

/-- C1 at a concrete input: the first list call on the freshly loaded wrapper. -/
theorem sensors_list_get_first_call_witness :
    demo_state.init_sensors_mutex = false ∧ demo_state.global_sensors_list = none ∧
    vendor_resolves demo_lookup demo_state ∧ demo_query.list = some 4096 ∧
    demo_query.count = ((demo_state.sensors 4096).length : Int) ∧
    ∃ s1, sensors_list_get demo_lookup demo_query demo_state
        = .ok ((((demo_state.sensors 4096).length : Int), some 4096), s1) ∧
      s1.sensors 4096 = (demo_state.sensors 4096).map spec_patch :=
  ⟨rfl, rfl, Or.inr ⟨rfl, rfl⟩, rfl, rfl,
    sensors_list_get_first_call demo_lookup demo_query demo_state 4096 rfl rfl
      (Or.inr ⟨rfl, rfl⟩) rfl rfl⟩

/-- C2 as stated fails: the accelerometer descriptor (type tag 1, none of tilt
detector, heart rate, proximity) reports FIFO counts 16 and 64, and the table
that the build produces holds 0 and 0 in their place. -/
theorem build_changes_fifo_of_unmatched_type :
    demo_accel.type ≠ SENSOR_TYPE_TILT_DETECTOR ∧ demo_accel.type ≠ SENSOR_TYPE_HEART_RATE ∧
    demo_accel.type ≠ SENSOR_TYPE_PROXIMITY ∧
    (demo_state.sensors 4096)[0]? = some demo_accel ∧
    ∃ s1, lazy_init_sensors_list demo_lookup demo_query demo_state = .ok s1 ∧
      (s1.sensors 4096)[0]?
        = some { demo_accel with fifoReservedEventCount := 0, fifoMaxEventCount := 0 } ∧
      (s1.sensors 4096)[0]? ≠ some demo_accel := by
  refine ⟨by decide, by decide, by decide, rfl, ?_⟩
  refine ⟨built demo_lookup demo_query 512 4096 demo_state, ?_, ?_, ?_⟩
  · exact lazy_init_sensors_list_build demo_lookup demo_query demo_state 512 4096 rfl rfl rfl rfl
      rfl (by decide)
  · rw [built_sensors_full demo_lookup demo_query 512 4096 demo_state rfl]
    simp [demo_state, State.init, demo_sensors, spec_patch, demo_accel,
      SENSOR_TYPE_TILT_DETECTOR, SENSOR_TYPE_HEART_RATE, SENSOR_TYPE_PROXIMITY]
  · rw [built_sensors_full demo_lookup demo_query 512 4096 demo_state rfl]
    simp [demo_state, State.init, demo_sensors, spec_patch, demo_accel]

/-- C2, amended: for a descriptor whose type is none of tilt detector, heart
rate, proximity, the table that the build produces holds the vendor descriptor
with the two FIFO counts set to 0 and every other field as the vendor reported
it. -/
theorem build_keeps_unmatched_type_but_fifo (hw : ModuleLookup) (q : ListQuery) (s : State)
    (a i : Nat) (x : sensor_t)
    (hlock : s.init_sensors_mutex = false) (hcache : s.global_sensors_list = none)
    (hres : vendor_resolves hw s)
    (hlist : q.list = some a) (hcount : q.count = ((s.sensors a).length : Int))
    (hx : (s.sensors a)[i]? = some x)
    (htilt : x.type ≠ SENSOR_TYPE_TILT_DETECTOR) (hheart : x.type ≠ SENSOR_TYPE_HEART_RATE)
    (hprox : x.type ≠ SENSOR_TYPE_PROXIMITY) :
    ∃ s1, lazy_init_sensors_list hw q s = .ok s1 ∧
      (s1.sensors a)[i]? = some { x with fifoReservedEventCount := 0, fifoMaxEventCount := 0 } := by
  obtain ⟨m, hret, hmod⟩ := check_vendor_module_resolves hw s hres
  refine ⟨built hw q m a s, ?_, ?_⟩
  · exact lazy_init_sensors_list_build hw q s m a hlock hcache hret hmod hlist hcount.le
  · rw [built_sensors_full hw q m a s hcount]
    simp [hx, spec_patch, htilt, hheart, hprox]

/-- C2, amended, at a concrete input: the accelerometer descriptor of the vendor
table at address 4096. -/
theorem build_keeps_unmatched_type_but_fifo_witness :
    demo_state.init_sensors_mutex = false ∧ demo_state.global_sensors_list = none ∧
    vendor_resolves demo_lookup demo_state ∧ demo_query.list = some 4096 ∧
    demo_query.count = ((demo_state.sensors 4096).length : Int) ∧
    (demo_state.sensors 4096)[0]? = some demo_accel ∧
    demo_accel.type ≠ SENSOR_TYPE_TILT_DETECTOR ∧ demo_accel.type ≠ SENSOR_TYPE_HEART_RATE ∧
    demo_accel.type ≠ SENSOR_TYPE_PROXIMITY ∧
    ∃ s1, lazy_init_sensors_list demo_lookup demo_query demo_state = .ok s1 ∧
      (s1.sensors 4096)[0]?
        = some { demo_accel with fifoReservedEventCount := 0, fifoMaxEventCount := 0 } :=
  ⟨rfl, rfl, Or.inr ⟨rfl, rfl⟩, rfl, rfl, rfl, by decide, by decide, by decide,
    build_keeps_unmatched_type_but_fifo demo_lookup demo_query demo_state 4096 0 demo_accel
      rfl rfl (Or.inr ⟨rfl, rfl⟩) rfl rfl rfl (by decide) (by decide) (by decide)⟩

/-- With the lock free and the cache populated, `sensors_list_get` returns the
stored count and pointer and leaves the state as it was. -/
theorem sensors_list_get_cached (hw : ModuleLookup) (q : ListQuery) (s : State) (a : Nat)
    (hlock : s.init_sensors_mutex = false) (hcache : s.global_sensors_list = some a) :
    sensors_list_get hw q s = .ok ((s.global_sensors_count, some a), s) := by
  unfold sensors_list_get
  rw [lazy_init_sensors_list_cached hw q s a hlock hcache]
  simp [bind, Except.bind, hcache, pure, Except.pure]

/-- With the lock free and the cache empty, a failing vendor lookup makes
`sensors_list_get` return `-EINVAL` without writing `*plist`; the cache stays
empty and the lock stays held. -/
theorem sensors_list_get_unresolved (hw : ModuleLookup) (q : ListQuery) (s : State)
    (hlock : s.init_sensors_mutex = false) (hcache : s.global_sensors_list = none)
    (hmod : s.gVendorModule = none) (hret : hw.ret ≠ 0) :
    ∃ s1, sensors_list_get hw q s = .ok ((-EINVAL, none), s1) ∧
      s1.global_sensors_list = none ∧ s1.init_sensors_mutex = true := by
  obtain ⟨lock, gvm, dev, gl, gc, sens, devs, tr⟩ := s
  simp only at hlock hcache hmod
  subst hlock hcache hmod
  simp [sensors_list_get, lazy_init_sensors_list, check_vendor_module, hret, bind, Except.bind,
    pure, Except.pure]

/-- With the lock free and the cache empty, a vendor query that leaves `NULL`
and reports no positive count makes `sensors_list_get` return `-EINVAL` without
writing `*plist`; the cache stays empty. -/
theorem sensors_list_get_no_list (hw : ModuleLookup) (q : ListQuery) (s : State)
    (hlock : s.init_sensors_mutex = false) (hcache : s.global_sensors_list = none)
    (hres : vendor_resolves hw s) (hlist : q.list = none) (hcount : q.count ≤ 0) :
    ∃ s1, sensors_list_get hw q s = .ok ((-EINVAL, none), s1) ∧
      s1.global_sensors_list = none ∧ s1.init_sensors_mutex = false := by
  obtain ⟨m, hret, hmod⟩ := check_vendor_module_resolves hw s hres
  obtain ⟨lock, gvm, dev, gl, gc, sens, devs, tr⟩ := s
  simp only at hlock hcache
  subst hlock hcache
  have h0 : q.count.toNat = 0 := Int.toNat_eq_zero.mpr hcount
  cases gvm with
  | some m0 =>
    simp [sensors_list_get, lazy_init_sensors_list, check_vendor_module, patch_pass, h0, hlist,
      bind, Except.bind, pure, Except.pure]
  | none =>
    simp only [check_vendor_module] at hret hmod
    simp [sensors_list_get, lazy_init_sensors_list, check_vendor_module, patch_pass, h0, hlist,
      hret, hmod, bind, Except.bind, pure, Except.pure]

/-- Once the table is built, any further run of list calls returns the stored
count and pointer every time and leaves the state as it was. -/
theorem sensors_list_get_seq_cached (env : List (ModuleLookup × ListQuery)) (s : State) (a : Nat)
    (hlock : s.init_sensors_mutex = false) (hcache : s.global_sensors_list = some a) :
    sensors_list_get_seq env s
      = .ok (List.replicate env.length (s.global_sensors_count, some a), s) := by
  induction env with
  | nil => simp [sensors_list_get_seq]
  | cons e env ih =>
    simp [sensors_list_get_seq, sensors_list_get_cached e.1 e.2 s a hlock hcache, ih, bind,
      Except.bind, pure, Except.pure, List.replicate_succ]

theorem list_queries_append (t u : List Call) :
    list_queries (t ++ u) = list_queries t + list_queries u := by
  simp [list_queries]

theorem list_queries_check_vendor_module (hw : ModuleLookup) (s : State) :
    list_queries (check_vendor_module hw s).2.trace = list_queries s.trace := by
  unfold check_vendor_module
  cases s.gVendorModule with
  | some m => rfl
  | none => simp [list_queries]

/-! ## Claims about the capability table -/

/-- With the init lock free and the cache empty, a vendor module that resolves
and a vendor query that reports the non-null array at `a` with a count that
stays within it, any run of list calls (the first one and `env.length` more,
with nothing in between) returns the same count and the same pointer every
time; the state after the whole run is the state after the first call, so the
vendor list query has been made exactly once, on the first call, and the array
behind the pointer has the patch applied once to each of its `count`
descriptors. -/
theorem sensors_list_get_seq_builds_once (e : ModuleLookup × ListQuery)
    (env : List (ModuleLookup × ListQuery)) (s : State) (a : Nat)
    (hlock : s.init_sensors_mutex = false) (hcache : s.global_sensors_list = none)
    (hres : vendor_resolves e.1 s)
    (hlist : e.2.list = some a) (hcount : e.2.count ≤ ((s.sensors a).length : Int)) :
    ∃ s1, sensors_list_get e.1 e.2 s = .ok ((e.2.count, some a), s1) ∧
      sensors_list_get_seq (e :: env) s
        = .ok (List.replicate (env.length + 1) (e.2.count, some a), s1) ∧
      list_queries s1.trace = list_queries s.trace + 1 ∧
      s1.sensors a = patched_upto e.2.count.toNat (s.sensors a) := by
  obtain ⟨m, hret, hmod⟩ := check_vendor_module_resolves e.1 s hres
  have hbuild := lazy_init_sensors_list_build e.1 e.2 s m a hlock hcache hret hmod hlist hcount
  have hfirst : sensors_list_get e.1 e.2 s
      = .ok ((e.2.count, some a), built e.1 e.2 m a s) := by
    unfold sensors_list_get
    rw [hbuild]
    simp [bind, Except.bind, pure, Except.pure, built]
  have hrest := sensors_list_get_seq_cached env (built e.1 e.2 m a s) a rfl rfl
  refine ⟨built e.1 e.2 m a s, hfirst, ?_, ?_, ?_⟩
  · simp only [sensors_list_get_seq, hfirst, hrest, bind, Except.bind, pure, Except.pure]
    simp [built, List.replicate_succ]
  · simp [built, list_queries_append, list_queries_check_vendor_module]
    simp [list_queries]
  · simp [built]

/-- Three list calls on the freshly loaded wrapper; the vendor would fail on
the second call if it were asked. -/
theorem sensors_list_get_seq_builds_once_witness :
    demo_state.init_sensors_mutex = false ∧ demo_state.global_sensors_list = none ∧
    vendor_resolves demo_lookup demo_state ∧ demo_query.list = some 4096 ∧
    demo_query.count ≤ ((demo_state.sensors 4096).length : Int) ∧
    ∃ s1, sensors_list_get demo_lookup demo_query demo_state
        = .ok ((demo_query.count, some 4096), s1) ∧
      sensors_list_get_seq
          ((demo_lookup, demo_query) :: [(demo_lookup_fails, ⟨0, none⟩), (demo_lookup, demo_query)])
          demo_state
        = .ok (List.replicate 3 (demo_query.count, some 4096), s1) ∧
      list_queries s1.trace = list_queries demo_state.trace + 1 ∧
      s1.sensors 4096 = patched_upto demo_query.count.toNat (demo_state.sensors 4096) :=
  ⟨rfl, rfl, Or.inr ⟨rfl, rfl⟩, rfl, by decide,
    sensors_list_get_seq_builds_once (demo_lookup, demo_query)
      [(demo_lookup_fails, ⟨0, none⟩), (demo_lookup, demo_query)] demo_state 4096 rfl rfl
      (Or.inr ⟨rfl, rfl⟩) rfl (by decide)⟩

/-- C8, the code at the failing input: on the freshly loaded wrapper one list
call with a failing vendor lookup returns `-EINVAL` and leaves the cache empty.
From that state (empty cache, a vendor lookup that now resolves, a vendor query
that reports the non-null table at 4096) a run of two list calls makes no vendor
list query and returns nothing: the first call of the run blocks on the init
lock.  The same happens after an open and a close in that state, with the
vendor module cached in `gVendorModule`. -/
theorem sensors_list_get_seq_blocks_after_failed_lookup :
    ∃ s0, sensors_list_get demo_lookup_fails demo_query demo_state = .ok ((-EINVAL, none), s0) ∧
      s0.global_sensors_list = none ∧ vendor_resolves demo_lookup s0 ∧
      demo_query.list = some 4096 ∧ demo_query.count = ((s0.sensors 4096).length : Int) ∧
      sensors_list_get_seq [(demo_lookup, demo_query), (demo_lookup, demo_query)] s0
        = .error Stuck.deadlock ∧
      ∃ s1 s2, sensors_module_open demo_lookup demo_device_open (some 2048) none (some 256) "poll" s0
          = .ok ((0, some 2048), s1) ∧
        wrapper_sensors_module_close 0 (some 2048) s1 = .ok (0, s2) ∧
        s2.global_sensors_list = none ∧ s2.gVendorModule = some 512 ∧
        list_queries s2.trace = 0 ∧
        sensors_list_get_seq [(demo_lookup, demo_query), (demo_lookup, demo_query)] s2
          = .error Stuck.deadlock := by
  refine ⟨_, rfl, rfl, Or.inr ⟨rfl, rfl⟩, rfl, rfl, rfl, _, _, rfl, rfl, rfl, rfl, rfl, rfl⟩

/-- C5, the code at the failing input: on the freshly loaded wrapper (lock
free, cache empty) with a vendor lookup that fails, `lazy_init_sensors_list`
returns with the init lock still held, and the next list call blocks in
`pthread_mutex_lock`. -/
theorem lazy_init_sensors_list_leaks_lock :
    demo_state.init_sensors_mutex = false ∧
    ∃ s1, lazy_init_sensors_list demo_lookup_fails demo_query demo_state = .ok s1 ∧
      s1.init_sensors_mutex = true ∧
      lazy_init_sensors_list demo_lookup demo_query s1 = .error Stuck.deadlock := by
  refine ⟨rfl, _, rfl, rfl, rfl⟩

/-- C10, the code at the failing input: on the freshly loaded wrapper with a
vendor lookup that fails, the first `sensors_list_get` returns `-EINVAL`, writes
no list and leaves the cache empty; in the state it leaves (cache still empty,
lookup still failing) the second `sensors_list_get` does not return `-EINVAL`:
it blocks on the init lock. -/
theorem sensors_list_get_retry_blocks :
    ∃ s1, sensors_list_get demo_lookup_fails demo_query demo_state = .ok ((-EINVAL, none), s1) ∧
      s1.global_sensors_list = none ∧
      sensors_list_get demo_lookup_fails demo_query s1 = .error Stuck.deadlock := by
  refine ⟨_, rfl, rfl, rfl⟩

/-! ## Claims about the device proxy -/

/-- C6: with the device `d` open, `wrapper_batch` makes the one call
`d->setDelay(d, handle, ns)` and returns what that call returns; its outcome is
that of `wrapper_setDelay` with the same handle and period, and it is the same
for all flags and timeouts. -/
theorem wrapper_batch_forwards_setDelay (r : Int) (dev dev2 : Option Nat)
    (handle flags ns timeout : Int) (s : State) (d : Nat) (hopen : s.mtk_hw_dev = some d) :
    wrapper_batch r dev handle flags ns timeout s
        = .ok (r, { s with trace := s.trace ++ [Call.setDelay d handle ns] }) ∧
      wrapper_batch r dev handle flags ns timeout s = wrapper_setDelay r dev2 handle ns s ∧
      ∀ flags2 timeout2 : Int,
        wrapper_batch r dev handle flags2 ns timeout2 s
          = wrapper_batch r dev handle flags ns timeout s := by
  refine ⟨?_, ?_, ?_⟩
  · simp [wrapper_batch, hopen]
  · simp [wrapper_batch, wrapper_setDelay]
  · intro flags2 timeout2
    simp [wrapper_batch]

/-- C6 at the input of the specification: handle 7, period 1000000, timeout 500. -/
theorem wrapper_batch_forwards_setDelay_witness :
    demo_open_state.mtk_hw_dev = some 768 ∧
    (wrapper_batch 0 (some 2048) 7 1 1000000 500 demo_open_state
        = .ok (0, { demo_open_state with
            trace := demo_open_state.trace ++ [Call.setDelay 768 7 1000000] }) ∧
      wrapper_batch 0 (some 2048) 7 1 1000000 500 demo_open_state
        = wrapper_setDelay 0 (some 2048) 7 1000000 demo_open_state ∧
      ∀ flags2 timeout2 : Int,
        wrapper_batch 0 (some 2048) 7 flags2 1000000 timeout2 demo_open_state
          = wrapper_batch 0 (some 2048) 7 1 1000000 500 demo_open_state) :=
  ⟨rfl, wrapper_batch_forwards_setDelay 0 (some 2048) (some 2048) 7 1 1000000 500
    demo_open_state 768 rfl⟩

/-- C7: for every handle and every state, device open or not, `wrapper_flush`
returns `-EINVAL`, that is -22, and returns the whole state as it was: no call
is added to the trace, so none reaches the underlying device. -/
theorem wrapper_flush_rejects (dev : Option Nat) (handle : Int) (s : State) :
    wrapper_flush dev handle s = .ok (-EINVAL, s) ∧ -EINVAL = (-22 : Int) :=
  ⟨rfl, rfl⟩

/-- C3, the code at the failing input: with the device 768 open and the table
cached, a second `sensors_module_open` returns `-ENODEV`, and on its way out
frees the open device and the cached table and clears both slots; after it the
first proxy's `setDelay` goes through a `NULL` `mtk_hw_dev`. -/
theorem sensors_module_open_twice_tears_down :
    demo_open_cached_state.mtk_hw_dev = some 768 ∧
    demo_open_cached_state.global_sensors_list = some 4096 ∧
    ∃ s1, sensors_module_open demo_lookup demo_device_open (some 2048) none (some 256) "poll"
          demo_open_cached_state = .ok ((-ENODEV, none), s1) ∧
      s1.mtk_hw_dev = none ∧ s1.global_sensors_list = none ∧
      s1.gVendorModule = demo_open_cached_state.gVendorModule ∧
      s1.trace = [Call.free 768, Call.free 4096] ∧
      wrapper_setDelay 0 (some 2048) 7 1000000 s1 = .error Stuck.null_deref := by
  refine ⟨rfl, rfl, _, rfl, rfl, rfl, rfl, rfl, rfl⟩

/-- C4, the code at the failing input: with the device 768 open, close with a
`NULL` handle and an underlying close that returns 0 returns 0, not `-EINVAL`;
the open-device slot and the cache are cleared. -/
theorem wrapper_sensors_module_close_null_returns_vendor_code :
    demo_open_cached_state.mtk_hw_dev = some 768 ∧
    ∃ s1, wrapper_sensors_module_close 0 none demo_open_cached_state = .ok (0, s1) ∧
      (0 : Int) ≠ -EINVAL ∧ s1.mtk_hw_dev = none ∧ s1.global_sensors_list = none := by
  refine ⟨rfl, _, rfl, by decide, rfl, rfl⟩

/-- C9: with a device `d` open, close returns and leaves the open-device slot
empty; a following open, with a vendor module that resolves, a vendor open that
returns 0 with the device `d2` and an allocation that yields `f`, returns 0 and
`f`, leaves `d2` in the open-device slot, and the record at `f` is the zeroed
record with tag, version, module and the wrapper's close, activate, setDelay,
poll, batch and flush. -/
theorem close_then_open_gives_fresh_proxy (rc : Int) (device : Option Nat) (s : State) (d : Nat)
    (hw : ModuleLookup) (vo : DeviceOpen) (alloc dev module : Option Nat) (id : String)
    (d2 f : Nat)
    (hopen : s.mtk_hw_dev = some d) (hres : vendor_resolves hw s)
    (hret : vo.ret = 0) (hdev : vo.device = some d2) (halloc : alloc = some f) :
    ∃ s1 s2, wrapper_sensors_module_close rc device s = .ok (rc, s1) ∧
      s1.mtk_hw_dev = none ∧
      sensors_module_open hw vo alloc dev module id s1 = .ok ((0, some f), s2) ∧
      s2.mtk_hw_dev = some d2 ∧
      s2.devices f = wrapper_facade module := by
  obtain ⟨m, hret0, hmod⟩ := check_vendor_module_resolves hw s hres
  obtain ⟨lock, gvm, dev0, gl, gc, sens, devs, tr⟩ := s
  simp only at hopen
  subst hopen halloc
  cases gvm with
  | some m0 =>
    cases gl <;>
      simp [wrapper_sensors_module_close, release_sensors_list, sensors_module_open,
        check_vendor_module, hret, hdev, wrapper_facade, sensors_poll_device_1.zero]
  | none =>
    simp only [check_vendor_module] at hret0 hmod
    cases gl <;>
      simp [wrapper_sensors_module_close, release_sensors_list, sensors_module_open,
        check_vendor_module, hret, hdev, hret0, hmod, wrapper_facade, sensors_poll_device_1.zero]

/-- C9 at a concrete input: close and reopen from the open, cached state. -/
theorem close_then_open_gives_fresh_proxy_witness :
    demo_open_cached_state.mtk_hw_dev = some 768 ∧
    vendor_resolves demo_lookup demo_open_cached_state ∧
    demo_device_open.ret = 0 ∧ demo_device_open.device = some 1024 ∧
    ∃ s1 s2, wrapper_sensors_module_close 0 (some 2048) demo_open_cached_state = .ok (0, s1) ∧
      s1.mtk_hw_dev = none ∧
      sensors_module_open demo_lookup demo_device_open (some 3072) none (some 256) "poll" s1
        = .ok ((0, some 3072), s2) ∧
      s2.mtk_hw_dev = some 1024 ∧
      s2.devices 3072 = wrapper_facade (some 256) :=
  ⟨rfl, Or.inl rfl, rfl, rfl,
    close_then_open_gives_fresh_proxy 0 (some 2048) demo_open_cached_state 768 demo_lookup
      demo_device_open (some 3072) none (some 256) "poll" 1024 3072 rfl (Or.inl rfl) rfl rfl rfl⟩

/-! ## The init lock is touched by the list build alone -/

theorem release_sensors_list_keeps_lock (s : State) :
    (release_sensors_list s).init_sensors_mutex = s.init_sensors_mutex := by
  unfold release_sensors_list
  cases s.global_sensors_list <;> rfl

theorem sensors_module_open_fail_keeps_lock (ret : Int) (dev : Option Nat) (s : State) :
    (sensors_module_open_fail ret dev s).2.init_sensors_mutex = s.init_sensors_mutex := by
  unfold sensors_module_open_fail
  simp only [release_sensors_list_keeps_lock]
  cases dev <;> cases s.mtk_hw_dev <;> rfl

/-- Whatever `sensors_module_open` does, it leaves the init lock as it found it. -/
theorem sensors_module_open_keeps_lock (hw : ModuleLookup) (vo : DeviceOpen)
    (alloc dev module : Option Nat) (id : String) (s : State)
    (r : Int × Option Nat) (s1 : State)
    (h : sensors_module_open hw vo alloc dev module id s = .ok (r, s1)) :
    s1.init_sensors_mutex = s.init_sensors_mutex := by
  obtain ⟨hl, -⟩ := check_vendor_module_frame hw s
  unfold sensors_module_open at h
  split at h
  · simp only [Except.ok.injEq] at h
    have hs := congrArg Prod.snd h
    simp only at hs
    rw [← hs]
    exact sensors_module_open_fail_keeps_lock _ _ _
  · simp only at h
    split at h
    · simp only [Except.ok.injEq] at h
      have hs := congrArg Prod.snd h
      simp only at hs
      rw [← hs, sensors_module_open_fail_keeps_lock, hl]
    · split at h
      · simp at h
      · split at h
        · simp only [Except.ok.injEq] at h
          have hs := congrArg Prod.snd h
          simp only at hs
          rw [← hs, sensors_module_open_fail_keeps_lock]
          exact hl
        · split at h
          · simp only [Except.ok.injEq] at h
            have hs := congrArg Prod.snd h
            simp only at hs
            rw [← hs, sensors_module_open_fail_keeps_lock]
            exact hl
          · simp only [Except.ok.injEq, Prod.mk.injEq] at h
            rw [← h.2]
            exact hl

/-- Whatever `wrapper_sensors_module_close` does, it leaves the init lock as it
found it. -/
theorem wrapper_sensors_module_close_keeps_lock (rc : Int) (device : Option Nat) (s : State)
    (r : Int) (s1 : State) (h : wrapper_sensors_module_close rc device s = .ok (r, s1)) :
    s1.init_sensors_mutex = s.init_sensors_mutex := by
  cases hd : s.mtk_hw_dev with
  | none => simp [wrapper_sensors_module_close, hd] at h
  | some d =>
    simp only [wrapper_sensors_module_close, hd, Except.ok.injEq, Prod.mk.injEq] at h
    rw [← h.2, release_sensors_list_keeps_lock]

end SensorsWrapper
